import Mathlib

/-!
Verification of the request marshalling layer of the matrix-rust-sdk crypto
node bindings (src/requests.rs): a shallow embedding of the per-kind request
converters generated by the `request!` macro, of the `TryFrom<OutgoingRequest>`
dispatcher, and proofs of the specified properties.
-/

set_option autoImplicit false

namespace CryptoRequests

/-- JSON values as held by serde_json::Value: null, booleans, integers,
strings, arrays, and objects (association lists with string keys). -/
inductive Json where
  | null
  | bool (b : Bool)
  | num (n : Int)
  | str (s : String)
  | arr (elems : List Json)
  | obj (fields : List (String × Json))

/-- Hexadecimal digit character (lower case), used in JSON control escapes. -/
def hexDigit (n : Nat) : Char :=
  if n < 10 then Char.ofNat (48 + n) else Char.ofNat (87 + n)

/-- Escape of one character inside a JSON string, following serde_json. -/
def escapeChar (c : Char) : String :=
  if c = '"' then "\\\""
  else if c = '\\' then "\\\\"
  else if c = '\x08' then "\\b"
  else if c = '\x09' then "\\t"
  else if c = '\x0a' then "\\n"
  else if c = '\x0c' then "\\f"
  else if c = '\x0d' then "\\r"
  else if c.toNat < 32 then
    "\\u00" ++ String.singleton (hexDigit (c.toNat / 16)) ++ String.singleton (hexDigit (c.toNat % 16))
  else String.singleton c

/-- Escape of a whole string for inclusion in JSON output. -/
def escapeString (s : String) : String :=
  s.foldl (fun acc c => acc ++ escapeChar c) ""

mutual

/-- Compact JSON serialization of a value (serde_json::to_string). On a
serde_json::Value this serialization is total. -/
def jsonToString : Json → String
  | Json.null => "null"
  | Json.bool b => if b then "true" else "false"
  | Json.num n => toString n
  | Json.str s => "\"" ++ escapeString s ++ "\""
  | Json.arr xs => "[" ++ jsonArrToString xs ++ "]"
  | Json.obj m => "\x7b" ++ jsonObjToString m ++ "\x7d"

/-- Serialization of the comma-separated elements of a JSON array. -/
def jsonArrToString : List Json → String
  | [] => ""
  | [x] => jsonToString x
  | x :: y :: xs => jsonToString x ++ "," ++ jsonArrToString (y :: xs)

/-- Serialization of the comma-separated members of a JSON object. -/
def jsonObjToString : List (String × Json) → String
  | [] => ""
  | [(k, v)] => "\"" ++ escapeString k ++ "\":" ++ jsonToString v
  | (k, v) :: p :: xs =>
    "\"" ++ escapeString k ++ "\":" ++ jsonToString v ++ "," ++ jsonObjToString (p :: xs)

end

/-- Error type produced by serde_json serialization (its message). -/
abbrev SerdeError := String

/-- Error type of the binding layer (napi::Error): the single
serialization-error kind produced by into_err, carrying a message. -/
structure NapiError where
  message : String
  deriving Repr, DecidableEq

/-- Conversion of an underlying serialization error into the single napi
error kind (the crate's into_err helper). -/
def into_err (e : SerdeError) : NapiError := ⟨e⟩

/-- Result of serde serialization of a source-payload field: its JSON value,
or a serialization error (serde_json::to_value / to_string are fallible). -/
abbrev SVal := Except SerdeError Json

/-- Model of serde_json::to_value(field).map_err(into_err) applied to a
source field, as in the request macro's grouped-body builder. -/
def to_value (v : SVal) : Except NapiError Json := v.mapError into_err

/-- Model of std::time::Duration: whole seconds (u64 in Rust) plus a
sub-second nanosecond count below 10^9. -/
structure Duration where
  secs : Nat
  nanos : Nat
  deriving Repr, DecidableEq

/-- Millisecond count of a duration (Duration::as_millis, a u128 in Rust;
the value always fits u128 so Nat is adequate). -/
def Duration.as_millis (d : Duration) : Nat :=
  d.secs * 1000 + d.nanos / 1000000

/-- Duration made of a whole number of nanoseconds. -/
def Duration.ofNanos (n : Nat) : Duration :=
  ⟨n / 1000000000, n % 1000000000⟩

/-- Duration made of a whole number of milliseconds. -/
def Duration.ofMillis (m : Nat) : Duration :=
  ⟨m / 1000, (m % 1000) * 1000000⟩

/-- First value that does not fit an unsigned 64-bit integer: 2^64. -/
def u64Bound : Nat := 18446744073709551616

/-- Model of u64::try_from on the u128 millisecond count, with the
TryFromIntError mapped to the napi error kind by into_err. -/
def u64_try_from (n : Nat) : Except NapiError Nat :=
  if n < u64Bound then Except.ok n
  else Except.error (into_err "out of range integral type conversion attempted")

/-- Timeout transform of the KeysQuery and KeysClaim converters:
timeout.as_ref().map(Duration::as_millis).map(u64::try_from).transpose()
.map_err(into_err). -/
def timeoutTransform (timeout : Option Duration) : Except NapiError (Option Nat) :=
  match timeout with
  | none => Except.ok none
  | some d => (u64_try_from d.as_millis).map some

/-- Serialization of an optional u64 (the transformed timeout field): absent
serializes to JSON null, present to the integer. It never fails. -/
def optNatToJson : Option Nat → Json
  | none => Json.null
  | some n => Json.num (Int.ofNat n)

/-- Insertion into serde_json::Map (a map with string keys ordered by key):
the association list is kept sorted and an existing binding is replaced. -/
def mapInsert (k : String) (v : Json) : List (String × Json) → List (String × Json)
  | [] => [(k, v)]
  | (k0, v0) :: rest =>
    if k < k0 then (k, v) :: (k0, v0) :: rest
    else if k = k0 then (k, v) :: rest
    else (k0, v0) :: mapInsert k v rest

/-- Kind discriminant exposed to callers (the RequestType enum). -/
inductive RequestType where
  | KeysUpload
  | KeysQuery
  | KeysClaim
  | ToDevice
  | SignatureUpload
  | RoomMessage
  | KeysBackup
  deriving Repr, DecidableEq

/-- Source payload of a ruma keys/upload request: the three fields grouped
into the body, each an arbitrary serializable value. -/
structure RumaKeysUploadRequest where
  device_keys : SVal
  one_time_keys : SVal
  fallback_keys : SVal

/-- Source payload of a ruma keys/query request: an optional timeout duration
and the serializable device_keys map. -/
structure RumaKeysQueryRequest where
  timeout : Option Duration
  device_keys : SVal

/-- Source payload of a ruma keys/claim request: an optional timeout duration
and the serializable one_time_keys map. -/
structure RumaKeysClaimRequest where
  timeout : Option Duration
  one_time_keys : SVal

/-- Source payload of a ruma to-device request: event type and transaction id
(in canonical string form, as given by to_string) and serializable messages. -/
structure RumaToDeviceRequest where
  event_type : String
  txn_id : String
  messages : SVal

/-- Source payload of a ruma signature-upload request. -/
structure RumaSignatureUploadRequest where
  signed_keys : SVal

/-- Message-like event content carried by a room message request: it exposes
the event-type tag (content.event_type(), canonical string form) and is
serializable to JSON (possibly failing). -/
structure MessageLikeEventContent where
  event_type : String
  serialized : SVal

/-- Source payload of a room message request: room id and transaction id in
canonical string form, plus the message content. -/
structure RumaRoomMessageRequest where
  room_id : String
  txn_id : String
  content : MessageLikeEventContent

/-- Source payload of a keys-backup request. -/
structure RumaKeysBackupRequest where
  rooms : SVal

/-- External record for the /keys/upload endpoint. -/
structure KeysUploadRequest where
  id : String
  body : String
  deriving Repr, DecidableEq

/-- Request type getter of KeysUploadRequest. -/
def KeysUploadRequest.request_type (_ : KeysUploadRequest) : RequestType :=
  RequestType.KeysUpload

/-- External record for the /keys/query endpoint. -/
structure KeysQueryRequest where
  id : String
  body : String
  deriving Repr, DecidableEq

/-- Request type getter of KeysQueryRequest. -/
def KeysQueryRequest.request_type (_ : KeysQueryRequest) : RequestType :=
  RequestType.KeysQuery

/-- External record for the /keys/claim endpoint. -/
structure KeysClaimRequest where
  id : String
  body : String
  deriving Repr, DecidableEq

/-- Request type getter of KeysClaimRequest. -/
def KeysClaimRequest.request_type (_ : KeysClaimRequest) : RequestType :=
  RequestType.KeysClaim

/-- External record for the /sendToDevice endpoint: two extracted scalar
fields plus the JSON body. -/
structure ToDeviceRequest where
  id : String
  event_type : String
  txn_id : String
  body : String
  deriving Repr, DecidableEq

/-- Request type getter of ToDeviceRequest. -/
def ToDeviceRequest.request_type (_ : ToDeviceRequest) : RequestType :=
  RequestType.ToDevice

/-- External record for the /keys/signatures/upload endpoint. -/
structure SignatureUploadRequest where
  id : String
  body : String
  deriving Repr, DecidableEq

/-- Request type getter of SignatureUploadRequest. -/
def SignatureUploadRequest.request_type (_ : SignatureUploadRequest) : RequestType :=
  RequestType.SignatureUpload

/-- External record for sending room messages: three extracted scalar fields
plus the JSON-encoded content (exposed to JavaScript under the name body). -/
structure RoomMessageRequest where
  id : String
  room_id : String
  txn_id : String
  event_type : String
  content : String
  deriving Repr, DecidableEq

/-- Request type getter of RoomMessageRequest. -/
def RoomMessageRequest.request_type (_ : RoomMessageRequest) : RequestType :=
  RequestType.RoomMessage

/-- External record for backing up a batch of room keys. -/
structure KeysBackupRequest where
  id : String
  body : String
  deriving Repr, DecidableEq

/-- Request type getter of KeysBackupRequest. -/
def KeysBackupRequest.request_type (_ : KeysBackupRequest) : RequestType :=
  RequestType.KeysBackup

/-- Conversion core generated by the request macro for KeysUploadRequest:
the body groups device_keys, one_time_keys, fallback_keys in declared order,
propagating the first serialization error (the Rust ? operator). -/
def KeysUploadRequest.tryFromWithId (request_id : String) (request : RumaKeysUploadRequest) :
    Except NapiError KeysUploadRequest :=
  match to_value request.device_keys with
  | Except.error e => Except.error e
  | Except.ok v1 =>
    match to_value request.one_time_keys with
    | Except.error e => Except.error e
    | Except.ok v2 =>
      match to_value request.fallback_keys with
      | Except.error e => Except.error e
      | Except.ok v3 =>
        Except.ok
          { id := request_id,
            body := jsonToString (Json.obj
              (mapInsert "fallback_keys" v3
                (mapInsert "one_time_keys" v2
                  (mapInsert "device_keys" v1 [])))) }

/-- TryFrom taking only the borrowed source request: the id is String::new(). -/
def KeysUploadRequest.tryFromRef (request : RumaKeysUploadRequest) :
    Except NapiError KeysUploadRequest :=
  KeysUploadRequest.tryFromWithId "" request

/-- TryFrom taking the pair of request id and borrowed source request. -/
def KeysUploadRequest.tryFromPair (p : String × RumaKeysUploadRequest) :
    Except NapiError KeysUploadRequest :=
  KeysUploadRequest.tryFromWithId p.1 p.2

/-- Conversion core generated by the request macro for KeysQueryRequest:
the body groups timeout (after the duration-to-milliseconds transform) and
device_keys. -/
def KeysQueryRequest.tryFromWithId (request_id : String) (request : RumaKeysQueryRequest) :
    Except NapiError KeysQueryRequest :=
  match timeoutTransform request.timeout with
  | Except.error e => Except.error e
  | Except.ok t =>
    match to_value request.device_keys with
    | Except.error e => Except.error e
    | Except.ok v =>
      Except.ok
        { id := request_id,
          body := jsonToString (Json.obj
            (mapInsert "device_keys" v
              (mapInsert "timeout" (optNatToJson t) []))) }

/-- TryFrom taking only the borrowed source request: the id is String::new(). -/
def KeysQueryRequest.tryFromRef (request : RumaKeysQueryRequest) :
    Except NapiError KeysQueryRequest :=
  KeysQueryRequest.tryFromWithId "" request

/-- TryFrom taking the pair of request id and borrowed source request. -/
def KeysQueryRequest.tryFromPair (p : String × RumaKeysQueryRequest) :
    Except NapiError KeysQueryRequest :=
  KeysQueryRequest.tryFromWithId p.1 p.2

/-- Conversion core generated by the request macro for KeysClaimRequest:
the body groups timeout (after the duration-to-milliseconds transform) and
one_time_keys. -/
def KeysClaimRequest.tryFromWithId (request_id : String) (request : RumaKeysClaimRequest) :
    Except NapiError KeysClaimRequest :=
  match timeoutTransform request.timeout with
  | Except.error e => Except.error e
  | Except.ok t =>
    match to_value request.one_time_keys with
    | Except.error e => Except.error e
    | Except.ok v =>
      Except.ok
        { id := request_id,
          body := jsonToString (Json.obj
            (mapInsert "one_time_keys" v
              (mapInsert "timeout" (optNatToJson t) []))) }

/-- TryFrom taking only the borrowed source request: the id is String::new(). -/
def KeysClaimRequest.tryFromRef (request : RumaKeysClaimRequest) :
    Except NapiError KeysClaimRequest :=
  KeysClaimRequest.tryFromWithId "" request

/-- TryFrom taking the pair of request id and borrowed source request. -/
def KeysClaimRequest.tryFromPair (p : String × RumaKeysClaimRequest) :
    Except NapiError KeysClaimRequest :=
  KeysClaimRequest.tryFromWithId p.1 p.2

/-- Conversion core generated by the request macro for ToDeviceRequest:
event_type and txn_id are extracted verbatim (to_string) and the body groups
messages. -/
def ToDeviceRequest.tryFromWithId (request_id : String) (request : RumaToDeviceRequest) :
    Except NapiError ToDeviceRequest :=
  match to_value request.messages with
  | Except.error e => Except.error e
  | Except.ok v =>
    Except.ok
      { id := request_id,
        event_type := request.event_type,
        txn_id := request.txn_id,
        body := jsonToString (Json.obj (mapInsert "messages" v [])) }

/-- TryFrom taking only the borrowed source request: the id is String::new(). -/
def ToDeviceRequest.tryFromRef (request : RumaToDeviceRequest) :
    Except NapiError ToDeviceRequest :=
  ToDeviceRequest.tryFromWithId "" request

/-- TryFrom taking the pair of request id and borrowed source request. -/
def ToDeviceRequest.tryFromPair (p : String × RumaToDeviceRequest) :
    Except NapiError ToDeviceRequest :=
  ToDeviceRequest.tryFromWithId p.1 p.2

/-- Conversion core generated by the request macro for SignatureUploadRequest:
the body groups signed_keys. -/
def SignatureUploadRequest.tryFromWithId (request_id : String)
    (request : RumaSignatureUploadRequest) :
    Except NapiError SignatureUploadRequest :=
  match to_value request.signed_keys with
  | Except.error e => Except.error e
  | Except.ok v =>
    Except.ok
      { id := request_id,
        body := jsonToString (Json.obj (mapInsert "signed_keys" v [])) }

/-- TryFrom taking only the borrowed source request: the id is String::new(). -/
def SignatureUploadRequest.tryFromRef (request : RumaSignatureUploadRequest) :
    Except NapiError SignatureUploadRequest :=
  SignatureUploadRequest.tryFromWithId "" request

/-- TryFrom taking the pair of request id and borrowed source request. -/
def SignatureUploadRequest.tryFromPair (p : String × RumaSignatureUploadRequest) :
    Except NapiError SignatureUploadRequest :=
  SignatureUploadRequest.tryFromWithId p.1 p.2

/-- Conversion core generated by the request macro for RoomMessageRequest:
room_id and txn_id are extracted verbatim, event_type is derived from the
content's event-type tag, and the content itself is JSON-encoded
(serde_json::to_string on the content, not wrapped in a keyed object). -/
def RoomMessageRequest.tryFromWithId (request_id : String) (request : RumaRoomMessageRequest) :
    Except NapiError RoomMessageRequest :=
  match to_value request.content.serialized with
  | Except.error e => Except.error e
  | Except.ok v =>
    Except.ok
      { id := request_id,
        room_id := request.room_id,
        txn_id := request.txn_id,
        event_type := request.content.event_type,
        content := jsonToString v }

/-- TryFrom taking only the borrowed source request: the id is String::new(). -/
def RoomMessageRequest.tryFromRef (request : RumaRoomMessageRequest) :
    Except NapiError RoomMessageRequest :=
  RoomMessageRequest.tryFromWithId "" request

/-- TryFrom taking the pair of request id and borrowed source request. -/
def RoomMessageRequest.tryFromPair (p : String × RumaRoomMessageRequest) :
    Except NapiError RoomMessageRequest :=
  RoomMessageRequest.tryFromWithId p.1 p.2

/-- Conversion core generated by the request macro for KeysBackupRequest:
the body groups rooms. -/
def KeysBackupRequest.tryFromWithId (request_id : String) (request : RumaKeysBackupRequest) :
    Except NapiError KeysBackupRequest :=
  match to_value request.rooms with
  | Except.error e => Except.error e
  | Except.ok v =>
    Except.ok
      { id := request_id,
        body := jsonToString (Json.obj (mapInsert "rooms" v [])) }

/-- TryFrom taking only the borrowed source request: the id is String::new(). -/
def KeysBackupRequest.tryFromRef (request : RumaKeysBackupRequest) :
    Except NapiError KeysBackupRequest :=
  KeysBackupRequest.tryFromWithId "" request

/-- TryFrom taking the pair of request id and borrowed source request. -/
def KeysBackupRequest.tryFromPair (p : String × RumaKeysBackupRequest) :
    Except NapiError KeysBackupRequest :=
  KeysBackupRequest.tryFromWithId p.1 p.2

/-- Tagged payload of an abstract outgoing request, with exactly the variants
matched by the dispatcher in the source (AnyOutgoingRequest). -/
inductive AnyOutgoingRequest where
  | KeysUpload (r : RumaKeysUploadRequest)
  | KeysQuery (r : RumaKeysQueryRequest)
  | KeysClaim (r : RumaKeysClaimRequest)
  | ToDeviceRequest (r : RumaToDeviceRequest)
  | SignatureUpload (r : RumaSignatureUploadRequest)
  | RoomMessage (r : RumaRoomMessageRequest)

/-- Kind discriminant of an abstract outgoing request payload. -/
def AnyOutgoingRequest.kind : AnyOutgoingRequest → RequestType
  | AnyOutgoingRequest.KeysUpload _ => RequestType.KeysUpload
  | AnyOutgoingRequest.KeysQuery _ => RequestType.KeysQuery
  | AnyOutgoingRequest.KeysClaim _ => RequestType.KeysClaim
  | AnyOutgoingRequest.ToDeviceRequest _ => RequestType.ToDevice
  | AnyOutgoingRequest.SignatureUpload _ => RequestType.SignatureUpload
  | AnyOutgoingRequest.RoomMessage _ => RequestType.RoomMessage

/-- Abstract outgoing request owned by the crypto engine: the identifier in
its canonical string form (request_id().to_string()) and the tagged payload
(request()). -/
structure SdkOutgoingRequest where
  request_id : String
  request : AnyOutgoingRequest

/-- Newtype wrapper around the engine's outgoing request used by the binding
crate (struct OutgoingRequest). -/
structure OutgoingRequest where
  inner : SdkOutgoingRequest

/-- Closed union returned to callers (napi Either6): exactly six arms, in the
order KeysUpload, KeysQuery, KeysClaim, ToDevice, SignatureUpload,
RoomMessage. -/
inductive OutgoingRequests where
  | A (r : KeysUploadRequest)
  | B (r : KeysQueryRequest)
  | C (r : KeysClaimRequest)
  | D (r : ToDeviceRequest)
  | E (r : SignatureUploadRequest)
  | F (r : RoomMessageRequest)

/-- Request type carried by an arm of the external union. -/
def OutgoingRequests.requestType : OutgoingRequests → RequestType
  | OutgoingRequests.A r => r.request_type
  | OutgoingRequests.B r => r.request_type
  | OutgoingRequests.C r => r.request_type
  | OutgoingRequests.D r => r.request_type
  | OutgoingRequests.E r => r.request_type
  | OutgoingRequests.F r => r.request_type

/-- Request id carried by an arm of the external union. -/
def OutgoingRequests.id : OutgoingRequests → String
  | OutgoingRequests.A r => r.id
  | OutgoingRequests.B r => r.id
  | OutgoingRequests.C r => r.id
  | OutgoingRequests.D r => r.id
  | OutgoingRequests.E r => r.id
  | OutgoingRequests.F r => r.id

/-- Dispatcher (TryFrom of OutgoingRequest for OutgoingRequests): compute the
canonical string form of the request identifier once, classify the inner
request by kind, invoke the matching converter with that identifier, and wrap
the result in the corresponding Either6 arm, propagating conversion errors. -/
def OutgoingRequests.tryFrom (outgoing_request : OutgoingRequest) :
    Except NapiError OutgoingRequests :=
  let request_id := outgoing_request.inner.request_id
  match outgoing_request.inner.request with
  | AnyOutgoingRequest.KeysUpload request =>
    match KeysUploadRequest.tryFromPair (request_id, request) with
    | Except.error e => Except.error e
    | Except.ok r => Except.ok (OutgoingRequests.A r)
  | AnyOutgoingRequest.KeysQuery request =>
    match KeysQueryRequest.tryFromPair (request_id, request) with
    | Except.error e => Except.error e
    | Except.ok r => Except.ok (OutgoingRequests.B r)
  | AnyOutgoingRequest.KeysClaim request =>
    match KeysClaimRequest.tryFromPair (request_id, request) with
    | Except.error e => Except.error e
    | Except.ok r => Except.ok (OutgoingRequests.C r)
  | AnyOutgoingRequest.ToDeviceRequest request =>
    match ToDeviceRequest.tryFromPair (request_id, request) with
    | Except.error e => Except.error e
    | Except.ok r => Except.ok (OutgoingRequests.D r)
  | AnyOutgoingRequest.SignatureUpload request =>
    match SignatureUploadRequest.tryFromPair (request_id, request) with
    | Except.error e => Except.error e
    | Except.ok r => Except.ok (OutgoingRequests.E r)
  | AnyOutgoingRequest.RoomMessage request =>
    match RoomMessageRequest.tryFromPair (request_id, request) with
    | Except.error e => Except.error e
    | Except.ok r => Except.ok (OutgoingRequests.F r)

/-- Helper: an Except.map produces ok exactly when the argument was ok. -/
theorem except_map_ok_iff {α β γ : Type} (f : α → β) (x : Except γ α) (y : β) :
    x.map f = Except.ok y ↔ ∃ a, x = Except.ok a ∧ y = f a := by
  cases x <;> simp [Except.map, eq_comm]

/-- Characterization of successful KeysUpload conversion: every grouped field
serializes and the body is the serialized three-key object. -/
theorem keysUpload_ok_iff (i : String) (r : RumaKeysUploadRequest) (rec : KeysUploadRequest) :
    KeysUploadRequest.tryFromWithId i r = Except.ok rec ↔
    ∃ v1 v2 v3, r.device_keys = Except.ok v1 ∧ r.one_time_keys = Except.ok v2 ∧
      r.fallback_keys = Except.ok v3 ∧
      rec = ⟨i, jsonToString (Json.obj
        [("device_keys", v1), ("fallback_keys", v3), ("one_time_keys", v2)])⟩ := by
  cases hdk : r.device_keys <;> cases hot : r.one_time_keys <;> cases hfb : r.fallback_keys <;>
    simp +decide [KeysUploadRequest.tryFromWithId, to_value, Except.mapError, mapInsert,
      hdk, hot, hfb, eq_comm]

/-- Characterization of failing KeysUpload conversion. -/
theorem keysUpload_error_iff (i : String) (r : RumaKeysUploadRequest) :
    (∃ e, KeysUploadRequest.tryFromWithId i r = Except.error e) ↔
    ((∃ e, r.device_keys = Except.error e) ∨ (∃ e, r.one_time_keys = Except.error e) ∨
      (∃ e, r.fallback_keys = Except.error e)) := by
  cases hdk : r.device_keys <;> cases hot : r.one_time_keys <;> cases hfb : r.fallback_keys <;>
    simp +decide [KeysUploadRequest.tryFromWithId, to_value, Except.mapError, mapInsert,
      hdk, hot, hfb]

/-- Characterization of successful KeysQuery conversion. -/
theorem keysQuery_ok_iff (i : String) (r : RumaKeysQueryRequest) (rec : KeysQueryRequest) :
    KeysQueryRequest.tryFromWithId i r = Except.ok rec ↔
    ∃ t v, timeoutTransform r.timeout = Except.ok t ∧ r.device_keys = Except.ok v ∧
      rec = ⟨i, jsonToString (Json.obj
        [("device_keys", v), ("timeout", optNatToJson t)])⟩ := by
  cases ht : timeoutTransform r.timeout <;> cases hdk : r.device_keys <;>
    simp +decide [KeysQueryRequest.tryFromWithId, to_value, Except.mapError, mapInsert,
      ht, hdk, eq_comm]

/-- Characterization of failing KeysQuery conversion. -/
theorem keysQuery_error_iff (i : String) (r : RumaKeysQueryRequest) :
    (∃ e, KeysQueryRequest.tryFromWithId i r = Except.error e) ↔
    ((∃ e, timeoutTransform r.timeout = Except.error e) ∨
      (∃ e, r.device_keys = Except.error e)) := by
  cases ht : timeoutTransform r.timeout <;> cases hdk : r.device_keys <;>
    simp +decide [KeysQueryRequest.tryFromWithId, to_value, Except.mapError, mapInsert, ht, hdk]

/-- Characterization of successful KeysClaim conversion. -/
theorem keysClaim_ok_iff (i : String) (r : RumaKeysClaimRequest) (rec : KeysClaimRequest) :
    KeysClaimRequest.tryFromWithId i r = Except.ok rec ↔
    ∃ t v, timeoutTransform r.timeout = Except.ok t ∧ r.one_time_keys = Except.ok v ∧
      rec = ⟨i, jsonToString (Json.obj
        [("one_time_keys", v), ("timeout", optNatToJson t)])⟩ := by
  cases ht : timeoutTransform r.timeout <;> cases hot : r.one_time_keys <;>
    simp +decide [KeysClaimRequest.tryFromWithId, to_value, Except.mapError, mapInsert,
      ht, hot, eq_comm]

/-- Characterization of failing KeysClaim conversion. -/
theorem keysClaim_error_iff (i : String) (r : RumaKeysClaimRequest) :
    (∃ e, KeysClaimRequest.tryFromWithId i r = Except.error e) ↔
    ((∃ e, timeoutTransform r.timeout = Except.error e) ∨
      (∃ e, r.one_time_keys = Except.error e)) := by
  cases ht : timeoutTransform r.timeout <;> cases hot : r.one_time_keys <;>
    simp +decide [KeysClaimRequest.tryFromWithId, to_value, Except.mapError, mapInsert, ht, hot]

/-- Characterization of successful ToDevice conversion. -/
theorem toDevice_ok_iff (i : String) (r : RumaToDeviceRequest) (rec : ToDeviceRequest) :
    ToDeviceRequest.tryFromWithId i r = Except.ok rec ↔
    ∃ v, r.messages = Except.ok v ∧
      rec = ⟨i, r.event_type, r.txn_id, jsonToString (Json.obj [("messages", v)])⟩ := by
  cases hm : r.messages <;>
    simp +decide [ToDeviceRequest.tryFromWithId, to_value, Except.mapError, mapInsert,
      hm, eq_comm]

/-- Characterization of failing ToDevice conversion. -/
theorem toDevice_error_iff (i : String) (r : RumaToDeviceRequest) :
    (∃ e, ToDeviceRequest.tryFromWithId i r = Except.error e) ↔
    (∃ e, r.messages = Except.error e) := by
  cases hm : r.messages <;>
    simp +decide [ToDeviceRequest.tryFromWithId, to_value, Except.mapError, mapInsert, hm]

/-- Characterization of successful SignatureUpload conversion. -/
theorem signatureUpload_ok_iff (i : String) (r : RumaSignatureUploadRequest)
    (rec : SignatureUploadRequest) :
    SignatureUploadRequest.tryFromWithId i r = Except.ok rec ↔
    ∃ v, r.signed_keys = Except.ok v ∧
      rec = ⟨i, jsonToString (Json.obj [("signed_keys", v)])⟩ := by
  cases hs : r.signed_keys <;>
    simp +decide [SignatureUploadRequest.tryFromWithId, to_value, Except.mapError, mapInsert,
      hs, eq_comm]

/-- Characterization of failing SignatureUpload conversion. -/
theorem signatureUpload_error_iff (i : String) (r : RumaSignatureUploadRequest) :
    (∃ e, SignatureUploadRequest.tryFromWithId i r = Except.error e) ↔
    (∃ e, r.signed_keys = Except.error e) := by
  cases hs : r.signed_keys <;>
    simp +decide [SignatureUploadRequest.tryFromWithId, to_value, Except.mapError, mapInsert, hs]

/-- Characterization of successful RoomMessage conversion. -/
theorem roomMessage_ok_iff (i : String) (r : RumaRoomMessageRequest) (rec : RoomMessageRequest) :
    RoomMessageRequest.tryFromWithId i r = Except.ok rec ↔
    ∃ v, r.content.serialized = Except.ok v ∧
      rec = ⟨i, r.room_id, r.txn_id, r.content.event_type, jsonToString v⟩ := by
  cases hc : r.content.serialized <;>
    simp +decide [RoomMessageRequest.tryFromWithId, to_value, Except.mapError, hc, eq_comm]

/-- Characterization of failing RoomMessage conversion. -/
theorem roomMessage_error_iff (i : String) (r : RumaRoomMessageRequest) :
    (∃ e, RoomMessageRequest.tryFromWithId i r = Except.error e) ↔
    (∃ e, r.content.serialized = Except.error e) := by
  cases hc : r.content.serialized <;>
    simp +decide [RoomMessageRequest.tryFromWithId, to_value, Except.mapError, hc]

/-- Characterization of successful KeysBackup conversion. -/
theorem keysBackup_ok_iff (i : String) (r : RumaKeysBackupRequest) (rec : KeysBackupRequest) :
    KeysBackupRequest.tryFromWithId i r = Except.ok rec ↔
    ∃ v, r.rooms = Except.ok v ∧
      rec = ⟨i, jsonToString (Json.obj [("rooms", v)])⟩ := by
  cases hr : r.rooms <;>
    simp +decide [KeysBackupRequest.tryFromWithId, to_value, Except.mapError, mapInsert,
      hr, eq_comm]

/-- Characterization of failing KeysBackup conversion. -/
theorem keysBackup_error_iff (i : String) (r : RumaKeysBackupRequest) :
    (∃ e, KeysBackupRequest.tryFromWithId i r = Except.error e) ↔
    (∃ e, r.rooms = Except.error e) := by
  cases hr : r.rooms <;>
    simp +decide [KeysBackupRequest.tryFromWithId, to_value, Except.mapError, mapInsert, hr]

/-- Characterization of the timeout transform failing: exactly when the
duration's millisecond count does not fit an unsigned 64-bit integer. -/
theorem timeoutTransform_error_iff (t : Option Duration) :
    (∃ e, timeoutTransform t = Except.error e) ↔
    ∃ d, t = some d ∧ u64Bound ≤ d.as_millis := by
  cases t with
  | none => simp [timeoutTransform]
  | some d =>
    by_cases h : d.as_millis < u64Bound
    · simp [timeoutTransform, u64_try_from, h, Except.map]
    · simp [timeoutTransform, u64_try_from, h, Except.map]
      omega

/-- Dispatch of a KeysUpload outgoing request: the converter runs with the
canonical identifier and its result is wrapped in arm A. -/
theorem tryFrom_keysUpload (rid : String) (q : RumaKeysUploadRequest) :
    OutgoingRequests.tryFrom ⟨⟨rid, AnyOutgoingRequest.KeysUpload q⟩⟩ =
      (KeysUploadRequest.tryFromWithId rid q).map OutgoingRequests.A := by
  dsimp only [OutgoingRequests.tryFrom, KeysUploadRequest.tryFromPair]
  cases h : KeysUploadRequest.tryFromWithId rid q <;> simp [h, Except.map]

/-- Dispatch of a KeysQuery outgoing request into arm B. -/
theorem tryFrom_keysQuery (rid : String) (q : RumaKeysQueryRequest) :
    OutgoingRequests.tryFrom ⟨⟨rid, AnyOutgoingRequest.KeysQuery q⟩⟩ =
      (KeysQueryRequest.tryFromWithId rid q).map OutgoingRequests.B := by
  dsimp only [OutgoingRequests.tryFrom, KeysQueryRequest.tryFromPair]
  cases h : KeysQueryRequest.tryFromWithId rid q <;> simp [h, Except.map]

/-- Dispatch of a KeysClaim outgoing request into arm C. -/
theorem tryFrom_keysClaim (rid : String) (q : RumaKeysClaimRequest) :
    OutgoingRequests.tryFrom ⟨⟨rid, AnyOutgoingRequest.KeysClaim q⟩⟩ =
      (KeysClaimRequest.tryFromWithId rid q).map OutgoingRequests.C := by
  dsimp only [OutgoingRequests.tryFrom, KeysClaimRequest.tryFromPair]
  cases h : KeysClaimRequest.tryFromWithId rid q <;> simp [h, Except.map]

/-- Dispatch of a ToDevice outgoing request into arm D. -/
theorem tryFrom_toDevice (rid : String) (q : RumaToDeviceRequest) :
    OutgoingRequests.tryFrom ⟨⟨rid, AnyOutgoingRequest.ToDeviceRequest q⟩⟩ =
      (ToDeviceRequest.tryFromWithId rid q).map OutgoingRequests.D := by
  dsimp only [OutgoingRequests.tryFrom, ToDeviceRequest.tryFromPair]
  cases h : ToDeviceRequest.tryFromWithId rid q <;> simp [h, Except.map]

/-- Dispatch of a SignatureUpload outgoing request into arm E. -/
theorem tryFrom_signatureUpload (rid : String) (q : RumaSignatureUploadRequest) :
    OutgoingRequests.tryFrom ⟨⟨rid, AnyOutgoingRequest.SignatureUpload q⟩⟩ =
      (SignatureUploadRequest.tryFromWithId rid q).map OutgoingRequests.E := by
  dsimp only [OutgoingRequests.tryFrom, SignatureUploadRequest.tryFromPair]
  cases h : SignatureUploadRequest.tryFromWithId rid q <;> simp [h, Except.map]

/-- Dispatch of a RoomMessage outgoing request into arm F. -/
theorem tryFrom_roomMessage (rid : String) (q : RumaRoomMessageRequest) :
    OutgoingRequests.tryFrom ⟨⟨rid, AnyOutgoingRequest.RoomMessage q⟩⟩ =
      (RoomMessageRequest.tryFromWithId rid q).map OutgoingRequests.F := by
  dsimp only [OutgoingRequests.tryFrom, RoomMessageRequest.tryFromPair]
  cases h : RoomMessageRequest.tryFromWithId rid q <;> simp [h, Except.map]

/-- Sample serializable empty JSON object used by witnesses. -/
def emptyObj : SVal := Except.ok (Json.obj [])

/-- Sample to-device payload used by witnesses. -/
def sampleToDevice : RumaToDeviceRequest := ⟨"m.room_key", "1", emptyObj⟩

/-- Sample abstract outgoing request wrapping the to-device payload. -/
def sampleOutgoing : OutgoingRequest :=
  ⟨⟨"ID1", AnyOutgoingRequest.ToDeviceRequest sampleToDevice⟩⟩

/-- Record obtained by converting the sample outgoing request. -/
def sampleToDeviceRecord : ToDeviceRequest :=
  ⟨"ID1", "m.room_key", "1", jsonToString (Json.obj [("messages", Json.obj [])])⟩

/-- Sample room message payload used by witnesses. -/
def sampleRoomMessage : RumaRoomMessageRequest :=
  ⟨"!abc:example.org", "42", ⟨"m.room.message", Except.ok (Json.obj [])⟩⟩

/-- Record obtained by converting the sample room message payload with id W7. -/
def sampleRoomMessageRecord : RoomMessageRequest :=
  ⟨"W7", "!abc:example.org", "42", "m.room.message", jsonToString (Json.obj [])⟩

/-- C1 counterexample: the external union has no KeysBackup arm at all, so it
is a closed six-way union, not the claimed seven-way one. -/
theorem union_has_no_keysBackup_arm :
    ¬ ∃ u : OutgoingRequests, u.requestType = RequestType.KeysBackup := by
  rintro ⟨u, h⟩
  cases u <;>
    simp [OutgoingRequests.requestType, KeysUploadRequest.request_type,
      KeysQueryRequest.request_type, KeysClaimRequest.request_type,
      ToDeviceRequest.request_type, SignatureUploadRequest.request_type,
      RoomMessageRequest.request_type] at h

/-- C1 (amended): for every abstract outgoing request, the dispatcher
determines the identifier's canonical string form, classifies the request by
kind, invokes that kind's converter with that identifier, and wraps the
result into the corresponding arm of the closed SIX-way tagged union
(KeysUpload, KeysQuery, KeysClaim, ToDevice, SignatureUpload, RoomMessage);
KeysBackup has a record type and a converter but no arm of the union and is
never dispatched. -/
theorem dispatcher_wraps_matching_converter (o : OutgoingRequest) (u : OutgoingRequests) :
    OutgoingRequests.tryFrom o = Except.ok u ↔
      ((∃ q rec, o.inner.request = AnyOutgoingRequest.KeysUpload q ∧
          KeysUploadRequest.tryFromWithId o.inner.request_id q = Except.ok rec ∧
          u = OutgoingRequests.A rec) ∨
        (∃ q rec, o.inner.request = AnyOutgoingRequest.KeysQuery q ∧
          KeysQueryRequest.tryFromWithId o.inner.request_id q = Except.ok rec ∧
          u = OutgoingRequests.B rec) ∨
        (∃ q rec, o.inner.request = AnyOutgoingRequest.KeysClaim q ∧
          KeysClaimRequest.tryFromWithId o.inner.request_id q = Except.ok rec ∧
          u = OutgoingRequests.C rec) ∨
        (∃ q rec, o.inner.request = AnyOutgoingRequest.ToDeviceRequest q ∧
          ToDeviceRequest.tryFromWithId o.inner.request_id q = Except.ok rec ∧
          u = OutgoingRequests.D rec) ∨
        (∃ q rec, o.inner.request = AnyOutgoingRequest.SignatureUpload q ∧
          SignatureUploadRequest.tryFromWithId o.inner.request_id q = Except.ok rec ∧
          u = OutgoingRequests.E rec) ∨
        (∃ q rec, o.inner.request = AnyOutgoingRequest.RoomMessage q ∧
          RoomMessageRequest.tryFromWithId o.inner.request_id q = Except.ok rec ∧
          u = OutgoingRequests.F rec)) := by
  obtain ⟨⟨rid, req⟩⟩ := o
  cases req with
  | KeysUpload q => rw [tryFrom_keysUpload, except_map_ok_iff]; simp [eq_comm]
  | KeysQuery q => rw [tryFrom_keysQuery, except_map_ok_iff]; simp [eq_comm]
  | KeysClaim q => rw [tryFrom_keysClaim, except_map_ok_iff]; simp [eq_comm]
  | ToDeviceRequest q => rw [tryFrom_toDevice, except_map_ok_iff]; simp [eq_comm]
  | SignatureUpload q => rw [tryFrom_signatureUpload, except_map_ok_iff]; simp [eq_comm]
  | RoomMessage q => rw [tryFrom_roomMessage, except_map_ok_iff]; simp [eq_comm]

/-- C2: for every body-grouping kind, a successful conversion's body is the
serialization of a JSON object whose key set is exactly the declared
grouped-field list of that kind: KeysUpload device_keys, one_time_keys,
fallback_keys; KeysQuery timeout, device_keys; KeysClaim timeout,
one_time_keys; ToDevice messages; SignatureUpload signed_keys; KeysBackup
rooms — no extra and no missing keys. -/
theorem body_keys_match_declared_schema :
    (∀ i r rec, KeysUploadRequest.tryFromWithId i r = Except.ok rec →
      ∃ m, rec.body = jsonToString (Json.obj m) ∧
        (m.map Prod.fst).Perm ["device_keys", "one_time_keys", "fallback_keys"]) ∧
    (∀ i r rec, KeysQueryRequest.tryFromWithId i r = Except.ok rec →
      ∃ m, rec.body = jsonToString (Json.obj m) ∧
        (m.map Prod.fst).Perm ["timeout", "device_keys"]) ∧
    (∀ i r rec, KeysClaimRequest.tryFromWithId i r = Except.ok rec →
      ∃ m, rec.body = jsonToString (Json.obj m) ∧
        (m.map Prod.fst).Perm ["timeout", "one_time_keys"]) ∧
    (∀ i r rec, ToDeviceRequest.tryFromWithId i r = Except.ok rec →
      ∃ m, rec.body = jsonToString (Json.obj m) ∧
        (m.map Prod.fst).Perm ["messages"]) ∧
    (∀ i r rec, SignatureUploadRequest.tryFromWithId i r = Except.ok rec →
      ∃ m, rec.body = jsonToString (Json.obj m) ∧
        (m.map Prod.fst).Perm ["signed_keys"]) ∧
    (∀ i r rec, KeysBackupRequest.tryFromWithId i r = Except.ok rec →
      ∃ m, rec.body = jsonToString (Json.obj m) ∧
        (m.map Prod.fst).Perm ["rooms"]) := by
  refine ⟨?_, ?_, ?_, ?_, ?_, ?_⟩ <;> intro i r rec h
  · obtain ⟨v1, v2, v3, h1, h2, h3, hrec⟩ := (keysUpload_ok_iff i r rec).mp h
    subst hrec
    exact ⟨_, rfl, by simp only [List.map_cons, List.map_nil]; decide⟩
  · obtain ⟨t, v, h1, h2, hrec⟩ := (keysQuery_ok_iff i r rec).mp h
    subst hrec
    exact ⟨_, rfl, by simp only [List.map_cons, List.map_nil]; decide⟩
  · obtain ⟨t, v, h1, h2, hrec⟩ := (keysClaim_ok_iff i r rec).mp h
    subst hrec
    exact ⟨_, rfl, by simp only [List.map_cons, List.map_nil]; decide⟩
  · obtain ⟨v, h1, hrec⟩ := (toDevice_ok_iff i r rec).mp h
    subst hrec
    exact ⟨_, rfl, by simp only [List.map_cons, List.map_nil]; decide⟩
  · obtain ⟨v, h1, hrec⟩ := (signatureUpload_ok_iff i r rec).mp h
    subst hrec
    exact ⟨_, rfl, by simp only [List.map_cons, List.map_nil]; decide⟩
  · obtain ⟨v, h1, hrec⟩ := (keysBackup_ok_iff i r rec).mp h
    subst hrec
    exact ⟨_, rfl, by simp only [List.map_cons, List.map_nil]; decide⟩

/-- C2 witness: the KeysBackup schema instantiated on a concrete payload. -/
theorem body_keys_match_declared_schema_witness :
    ∃ m, (⟨"W2", jsonToString (Json.obj [("rooms", Json.null)])⟩ : KeysBackupRequest).body =
        jsonToString (Json.obj m) ∧ (m.map Prod.fst).Perm ["rooms"] :=
  body_keys_match_declared_schema.2.2.2.2.2 "W2" ⟨Except.ok Json.null⟩
    ⟨"W2", jsonToString (Json.obj [("rooms", Json.null)])⟩ rfl

/-- C3 counterexample: converting a KeysClaim request whose timeout is
18446744073709551615001 nanoseconds SUCCEEDS — that duration's whole
millisecond count is 18446744073709551, far below u64::MAX, so the
duration-to-milliseconds transform does not overflow. -/
theorem keysClaim_huge_ns_timeout_converts :
    KeysClaimRequest.tryFromWithId "ID"
        ⟨some (Duration.ofNanos 18446744073709551615001), Except.ok (Json.obj [])⟩ =
      Except.ok ⟨"ID", jsonToString (Json.obj
        [("one_time_keys", Json.obj []),
          ("timeout", Json.num (Int.ofNat 18446744073709551))])⟩ := by
  rw [keysClaim_ok_iff]
  exact ⟨some 18446744073709551, Json.obj [], rfl, rfl, rfl⟩

/-- C3 (amended): a KeysClaim timeout of 18446744073709551615001 nanoseconds
(millisecond count 18446744073709551, within u64) converts successfully;
overflow of the duration-to-milliseconds transform requires at least 2^64
milliseconds, and with a timeout of 2^64 milliseconds the conversion fails
with the single SerializationError and produces no record. -/
theorem keysClaim_timeout_overflow_needs_u64_ms :
    (∃ rec, KeysClaimRequest.tryFromWithId "ID2"
        ⟨some (Duration.ofNanos 18446744073709551615001), Except.ok (Json.obj [])⟩ =
      Except.ok rec) ∧
    KeysClaimRequest.tryFromWithId "ID2"
        ⟨some (Duration.ofMillis 18446744073709551616), Except.ok (Json.obj [])⟩ =
      Except.error (into_err "out of range integral type conversion attempted") := by
  constructor
  · exact ⟨_, (keysClaim_ok_iff _ _ _).mpr ⟨some 18446744073709551, Json.obj [], rfl, rfl, rfl⟩⟩
  · rfl

/-- C4: for both the KeysQuery and the KeysClaim timeout transform, a duration
of exactly u64::MAX milliseconds converts successfully while a duration one
millisecond longer fails with the SerializationError. -/
theorem timeout_u64_max_boundary :
    (∃ rec, KeysQueryRequest.tryFromWithId "B"
        ⟨some (Duration.ofMillis 18446744073709551615), Except.ok Json.null⟩ = Except.ok rec) ∧
    KeysQueryRequest.tryFromWithId "B"
        ⟨some (Duration.ofMillis 18446744073709551616), Except.ok Json.null⟩ =
      Except.error (into_err "out of range integral type conversion attempted") ∧
    (∃ rec, KeysClaimRequest.tryFromWithId "B"
        ⟨some (Duration.ofMillis 18446744073709551615), Except.ok Json.null⟩ = Except.ok rec) ∧
    KeysClaimRequest.tryFromWithId "B"
        ⟨some (Duration.ofMillis 18446744073709551616), Except.ok Json.null⟩ =
      Except.error (into_err "out of range integral type conversion attempted") := by
  refine ⟨⟨_, (keysQuery_ok_iff _ _ _).mpr ⟨some 18446744073709551615, Json.null, rfl, rfl, rfl⟩⟩,
    rfl,
    ⟨_, (keysClaim_ok_iff _ _ _).mpr ⟨some 18446744073709551615, Json.null, rfl, rfl, rfl⟩⟩,
    rfl⟩

/-- C5: every record produced through the dispatcher carries, in its id
field, the canonical string form of the abstract request's identifier copied
verbatim; the KeysBackup converter (the only kind without a union arm, hence
never dispatched) also copies a supplied identifier verbatim. -/
theorem record_id_is_canonical_identifier :
    (∀ o u, OutgoingRequests.tryFrom o = Except.ok u →
      OutgoingRequests.id u = o.inner.request_id) ∧
    (∀ i r rec, KeysBackupRequest.tryFromWithId i r = Except.ok rec → rec.id = i) := by
  constructor
  · intro o u h
    obtain ⟨⟨rid, req⟩⟩ := o
    cases req with
    | KeysUpload q =>
      rw [tryFrom_keysUpload, except_map_ok_iff] at h
      obtain ⟨a, ha, hu⟩ := h
      obtain ⟨v1, v2, v3, _, _, _, hrec⟩ := (keysUpload_ok_iff _ _ _).mp ha
      subst hu; subst hrec; rfl
    | KeysQuery q =>
      rw [tryFrom_keysQuery, except_map_ok_iff] at h
      obtain ⟨a, ha, hu⟩ := h
      obtain ⟨t, v, _, _, hrec⟩ := (keysQuery_ok_iff _ _ _).mp ha
      subst hu; subst hrec; rfl
    | KeysClaim q =>
      rw [tryFrom_keysClaim, except_map_ok_iff] at h
      obtain ⟨a, ha, hu⟩ := h
      obtain ⟨t, v, _, _, hrec⟩ := (keysClaim_ok_iff _ _ _).mp ha
      subst hu; subst hrec; rfl
    | ToDeviceRequest q =>
      rw [tryFrom_toDevice, except_map_ok_iff] at h
      obtain ⟨a, ha, hu⟩ := h
      obtain ⟨v, _, hrec⟩ := (toDevice_ok_iff _ _ _).mp ha
      subst hu; subst hrec; rfl
    | SignatureUpload q =>
      rw [tryFrom_signatureUpload, except_map_ok_iff] at h
      obtain ⟨a, ha, hu⟩ := h
      obtain ⟨v, _, hrec⟩ := (signatureUpload_ok_iff _ _ _).mp ha
      subst hu; subst hrec; rfl
    | RoomMessage q =>
      rw [tryFrom_roomMessage, except_map_ok_iff] at h
      obtain ⟨a, ha, hu⟩ := h
      obtain ⟨v, _, hrec⟩ := (roomMessage_ok_iff _ _ _).mp ha
      subst hu; subst hrec; rfl
  · intro i r rec h
    obtain ⟨v, _, hrec⟩ := (keysBackup_ok_iff _ _ _).mp h
    subst hrec; rfl

/-- C5 witness: the identifier of the sample dispatch result. -/
theorem record_id_is_canonical_identifier_witness :
    OutgoingRequests.id (OutgoingRequests.D sampleToDeviceRecord) = "ID1" :=
  record_id_is_canonical_identifier.1 sampleOutgoing
    (OutgoingRequests.D sampleToDeviceRecord) rfl

/-- C6: a conversion fails exactly when a serialized field fails to serialize
to JSON or (for KeysQuery and KeysClaim) the duration-to-milliseconds timeout
transform exceeds the unsigned 64-bit range; the Except result returns either
a full record or a single error, never a partial record. -/
theorem conversion_error_characterization :
    (∀ i r, (∃ e, KeysUploadRequest.tryFromWithId i r = Except.error e) ↔
      ((∃ e, r.device_keys = Except.error e) ∨ (∃ e, r.one_time_keys = Except.error e) ∨
        (∃ e, r.fallback_keys = Except.error e))) ∧
    (∀ i r, (∃ e, KeysQueryRequest.tryFromWithId i r = Except.error e) ↔
      ((∃ d, r.timeout = some d ∧ u64Bound ≤ d.as_millis) ∨
        (∃ e, r.device_keys = Except.error e))) ∧
    (∀ i r, (∃ e, KeysClaimRequest.tryFromWithId i r = Except.error e) ↔
      ((∃ d, r.timeout = some d ∧ u64Bound ≤ d.as_millis) ∨
        (∃ e, r.one_time_keys = Except.error e))) ∧
    (∀ i r, (∃ e, ToDeviceRequest.tryFromWithId i r = Except.error e) ↔
      (∃ e, r.messages = Except.error e)) ∧
    (∀ i r, (∃ e, SignatureUploadRequest.tryFromWithId i r = Except.error e) ↔
      (∃ e, r.signed_keys = Except.error e)) ∧
    (∀ i r, (∃ e, RoomMessageRequest.tryFromWithId i r = Except.error e) ↔
      (∃ e, r.content.serialized = Except.error e)) ∧
    (∀ i r, (∃ e, KeysBackupRequest.tryFromWithId i r = Except.error e) ↔
      (∃ e, r.rooms = Except.error e)) := by
  refine ⟨keysUpload_error_iff, ?_, ?_, toDevice_error_iff, signatureUpload_error_iff,
    roomMessage_error_iff, keysBackup_error_iff⟩
  · intro i r
    exact (keysQuery_error_iff i r).trans (or_congr (timeoutTransform_error_iff r.timeout) Iff.rfl)
  · intro i r
    exact (keysClaim_error_iff i r).trans (or_congr (timeoutTransform_error_iff r.timeout) Iff.rfl)

/-- C7: converting a RoomMessage request copies room_id and txn_id verbatim,
derives event_type from the content's event-type tag, and sets the body to
the JSON serialization of the content itself (not wrapped in a keyed
object). -/
theorem roomMessage_extraction (i : String) (r : RumaRoomMessageRequest)
    (rec : RoomMessageRequest)
    (h : RoomMessageRequest.tryFromWithId i r = Except.ok rec) :
    rec.room_id = r.room_id ∧ rec.txn_id = r.txn_id ∧
      rec.event_type = r.content.event_type ∧
      ∃ j, r.content.serialized = Except.ok j ∧ rec.content = jsonToString j := by
  obtain ⟨v, hv, hrec⟩ := (roomMessage_ok_iff _ _ _).mp h
  subst hrec
  exact ⟨rfl, rfl, rfl, v, hv, rfl⟩

/-- C7 witness: room message extraction on the concrete scenario of the
specification. -/
theorem roomMessage_extraction_witness :
    sampleRoomMessageRecord.room_id = sampleRoomMessage.room_id ∧
      sampleRoomMessageRecord.txn_id = sampleRoomMessage.txn_id ∧
      sampleRoomMessageRecord.event_type = sampleRoomMessage.content.event_type ∧
      ∃ j, sampleRoomMessage.content.serialized = Except.ok j ∧
        sampleRoomMessageRecord.content = jsonToString j :=
  roomMessage_extraction "W7" sampleRoomMessage sampleRoomMessageRecord rfl

/-- C8: conversion is deterministic — converting the same abstract request
twice through the dispatcher, or the same payload twice through the
KeysBackup converter, yields structurally identical records. -/
theorem conversion_deterministic :
    (∀ o u1 u2, OutgoingRequests.tryFrom o = Except.ok u1 →
      OutgoingRequests.tryFrom o = Except.ok u2 → u1 = u2) ∧
    (∀ i r rec1 rec2, KeysBackupRequest.tryFromWithId i r = Except.ok rec1 →
      KeysBackupRequest.tryFromWithId i r = Except.ok rec2 → rec1 = rec2) := by
  constructor
  · intro o u1 u2 h1 h2
    rw [h1] at h2
    injection h2
  · intro i r rec1 rec2 h1 h2
    rw [h1] at h2
    injection h2

/-- C8 witness: converting the sample outgoing request twice yields the same
record. -/
theorem conversion_deterministic_witness :
    OutgoingRequests.D sampleToDeviceRecord = OutgoingRequests.D sampleToDeviceRecord :=
  conversion_deterministic.1 sampleOutgoing (OutgoingRequests.D sampleToDeviceRecord)
    (OutgoingRequests.D sampleToDeviceRecord) rfl rfl

/-- C9: the identifier-less conversions (TryFrom of the borrowed source
request alone) produce, on success, records whose id is the empty string,
for every one of the seven kinds. -/
theorem identifierless_conversion_gives_empty_id :
    (∀ r rec, KeysUploadRequest.tryFromRef r = Except.ok rec → rec.id = "") ∧
    (∀ r rec, KeysQueryRequest.tryFromRef r = Except.ok rec → rec.id = "") ∧
    (∀ r rec, KeysClaimRequest.tryFromRef r = Except.ok rec → rec.id = "") ∧
    (∀ r rec, ToDeviceRequest.tryFromRef r = Except.ok rec → rec.id = "") ∧
    (∀ r rec, SignatureUploadRequest.tryFromRef r = Except.ok rec → rec.id = "") ∧
    (∀ r rec, RoomMessageRequest.tryFromRef r = Except.ok rec → rec.id = "") ∧
    (∀ r rec, KeysBackupRequest.tryFromRef r = Except.ok rec → rec.id = "") := by
  refine ⟨?_, ?_, ?_, ?_, ?_, ?_, ?_⟩ <;> intro r rec h
  · obtain ⟨v1, v2, v3, _, _, _, hrec⟩ :=
      (keysUpload_ok_iff _ _ _).mp (h : KeysUploadRequest.tryFromWithId "" r = Except.ok rec)
    subst hrec; rfl
  · obtain ⟨t, v, _, _, hrec⟩ :=
      (keysQuery_ok_iff _ _ _).mp (h : KeysQueryRequest.tryFromWithId "" r = Except.ok rec)
    subst hrec; rfl
  · obtain ⟨t, v, _, _, hrec⟩ :=
      (keysClaim_ok_iff _ _ _).mp (h : KeysClaimRequest.tryFromWithId "" r = Except.ok rec)
    subst hrec; rfl
  · obtain ⟨v, _, hrec⟩ :=
      (toDevice_ok_iff _ _ _).mp (h : ToDeviceRequest.tryFromWithId "" r = Except.ok rec)
    subst hrec; rfl
  · obtain ⟨v, _, hrec⟩ :=
      (signatureUpload_ok_iff _ _ _).mp
        (h : SignatureUploadRequest.tryFromWithId "" r = Except.ok rec)
    subst hrec; rfl
  · obtain ⟨v, _, hrec⟩ :=
      (roomMessage_ok_iff _ _ _).mp (h : RoomMessageRequest.tryFromWithId "" r = Except.ok rec)
    subst hrec; rfl
  · obtain ⟨v, _, hrec⟩ :=
      (keysBackup_ok_iff _ _ _).mp (h : KeysBackupRequest.tryFromWithId "" r = Except.ok rec)
    subst hrec; rfl

/-- C9 witness: the identifier-less KeysBackup conversion on a concrete
payload yields the empty id. -/
theorem identifierless_conversion_gives_empty_id_witness :
    (⟨"", jsonToString (Json.obj [("rooms", Json.null)])⟩ : KeysBackupRequest).id = "" :=
  identifierless_conversion_gives_empty_id.2.2.2.2.2.2 ⟨Except.ok Json.null⟩
    ⟨"", jsonToString (Json.obj [("rooms", Json.null)])⟩ rfl

/-- C10: when the optional timeout is absent, the KeysQuery and KeysClaim
conversions succeed (given the only other grouped field serializes, the sole
remaining failure source) and the body object still contains the key timeout,
bound to JSON null — the key is never omitted. -/
theorem absent_timeout_yields_null_timeout_key :
    (∀ i (r : RumaKeysQueryRequest) v, r.timeout = none → r.device_keys = Except.ok v →
      ∃ rec m, KeysQueryRequest.tryFromWithId i r = Except.ok rec ∧
        rec.body = jsonToString (Json.obj m) ∧ ("timeout", Json.null) ∈ m ∧
        ("device_keys", v) ∈ m) ∧
    (∀ i (r : RumaKeysClaimRequest) v, r.timeout = none → r.one_time_keys = Except.ok v →
      ∃ rec m, KeysClaimRequest.tryFromWithId i r = Except.ok rec ∧
        rec.body = jsonToString (Json.obj m) ∧ ("timeout", Json.null) ∈ m ∧
        ("one_time_keys", v) ∈ m) := by
  constructor
  · intro i r v ht hv
    refine ⟨⟨i, jsonToString (Json.obj [("device_keys", v), ("timeout", Json.null)])⟩,
      [("device_keys", v), ("timeout", Json.null)], ?_, rfl, by simp, by simp⟩
    exact (keysQuery_ok_iff _ _ _).mpr ⟨none, v, by rw [ht]; rfl, hv, rfl⟩
  · intro i r v ht hv
    refine ⟨⟨i, jsonToString (Json.obj [("one_time_keys", v), ("timeout", Json.null)])⟩,
      [("one_time_keys", v), ("timeout", Json.null)], ?_, rfl, by simp, by simp⟩
    exact (keysClaim_ok_iff _ _ _).mpr ⟨none, v, by rw [ht]; rfl, hv, rfl⟩

/-- C10 witness: a concrete KeysQuery request without timeout. -/
theorem absent_timeout_yields_null_timeout_key_witness :
    ∃ rec m, KeysQueryRequest.tryFromWithId "W10" ⟨none, Except.ok Json.null⟩ = Except.ok rec ∧
      rec.body = jsonToString (Json.obj m) ∧ ("timeout", Json.null) ∈ m ∧
      ("device_keys", Json.null) ∈ m :=
  absent_timeout_yields_null_timeout_key.1 "W10" ⟨none, Except.ok Json.null⟩ Json.null rfl rfl
